import Mathlib

/-!
Verification of the askless repository (TypeScript backend + React frontend)
against its natural-language specification.

The definitions below are a shallow embedding of the relevant source
functions:
* `generateDeterministicUUID` and `BOT_PERSONALITIES` from
  `backend/src/index.ts` (SHA-1 is the Node `crypto` primitive the source
  calls; it is implemented here bit-for-bit per FIPS 180, over `Nat` with
  explicit `% 2^32`).
* the profile layer (`getProfile`, `upsertAIProfile`, `ensureUserProfile`,
  `initializeBotProfiles`) from `backend/src/index.ts` and
  `backend/src/services/db.ts`, with the database modelled as an explicit
  list of rows and the external `auth.users` table as a list of ids.
* `findSimilarQuestions` from `backend/src/services/questionSearch.ts`,
  with the database RPC as an explicit function parameter.
* the `POST /api/ask` handler from `backend/src/index.ts`, with the
  external pieces (tag generation, the similarity RPC, per-bot LLM calls,
  row-id generation) as explicit parameters and the question/answer tables
  as explicit state.  The tags / question_tags tables and the best-effort
  tag-linking step are not modelled: no claim under verification concerns
  them.
* the vote layer (`getUserVote`, `createVote`, `getVoteCounts`) from
  `backend/src/services/db.ts` over an explicit list of vote rows.
* `shuffleArray` and the staggered-reveal effect from
  `frontend/src/App.tsx`, with `Math.random()` streams as explicit
  function parameters (rationals in `[0,1)` where the source uses a float
  in `[0,1)`).
-/

namespace Askless

/-! ## SHA-1 (the Node `crypto` primitive used by `generateDeterministicUUID`) -/

/-- One 32-bit word, rotated left by `n` bits (values kept below `2^32`). -/
def rotl32 (n x : Nat) : Nat :=
  (((x <<< n) % 4294967296) ||| ((x >>> (32 - n)) % 4294967296)) % 4294967296

/-- UTF-8 encoding of a single code point, as a list of byte values. -/
def utf8EncodeChar (n : Nat) : List Nat :=
  if n < 128 then [n]
  else if n < 2048 then [192 ||| (n >>> 6), 128 ||| (n &&& 63)]
  else if n < 65536 then
    [224 ||| (n >>> 12), 128 ||| ((n >>> 6) &&& 63), 128 ||| (n &&& 63)]
  else
    [240 ||| (n >>> 18), 128 ||| ((n >>> 12) &&& 63),
     128 ||| ((n >>> 6) &&& 63), 128 ||| (n &&& 63)]

/-- UTF-8 bytes of a string (Node `hash.update(string)` uses UTF-8). -/
def utf8Bytes (s : String) : List Nat :=
  (s.data.map (fun c => utf8EncodeChar c.toNat)).flatten

/-- The or-bit length of the message, as 8 big-endian bytes. -/
def bigEndian8 (n : Nat) : List Nat :=
  (List.range 8).map (fun i => (n >>> ((7 - i) * 8)) &&& 255)

/-- SHA-1 padding: `0x80`, zeros to 56 mod 64, then the 64-bit bit length. -/
def sha1Pad (msg : List Nat) : List Nat :=
  let z := (120 - ((msg.length + 1) % 64)) % 64
  msg ++ 128 :: List.replicate z 0 ++ bigEndian8 (msg.length * 8)

/-- Big-endian 32-bit words from bytes. -/
def bytesToWords : List Nat → List Nat
  | b0 :: b1 :: b2 :: b3 :: rest =>
      (((b0 * 256 + b1) * 256 + b2) * 256 + b3) :: bytesToWords rest
  | _ => []

/-- One step of the SHA-1 message-schedule extension. -/
def extendStep (ws : List Nat) : List Nat :=
  let n := ws.length
  ws ++ [rotl32 1 ((ws.getD (n - 3) 0) ^^^ (ws.getD (n - 8) 0) ^^^
                   (ws.getD (n - 14) 0) ^^^ (ws.getD (n - 16) 0))]

/-- SHA-1 round function. -/
def sha1F (i b c d : Nat) : Nat :=
  if i < 20 then (b &&& c) ||| ((b ^^^ 4294967295) &&& d)
  else if i < 40 then b ^^^ c ^^^ d
  else if i < 60 then (b &&& c) ||| (b &&& d) ||| (c &&& d)
  else b ^^^ c ^^^ d

/-- SHA-1 round constants. -/
def sha1K (i : Nat) : Nat :=
  if i < 20 then 1518500249
  else if i < 40 then 1859775393
  else if i < 60 then 2400959708
  else 3395469782

/-- The 80 compression rounds over the extended schedule. -/
def sha1Rounds (st : Nat × Nat × Nat × Nat × Nat) (ws : List Nat) :
    Nat × Nat × Nat × Nat × Nat :=
  ws.enum.foldl
    (fun st p =>
      let (a, b, c, d, e) := st
      let temp := (rotl32 5 a + sha1F p.1 b c d + e + sha1K p.1 + p.2) % 4294967296
      (temp, a, rotl32 30 b, c, d))
    st

/-- Process one 64-byte chunk. -/
def sha1Chunk (h : Nat × Nat × Nat × Nat × Nat) (chunk : List Nat) :
    Nat × Nat × Nat × Nat × Nat :=
  let ws := Nat.repeat extendStep 64 (bytesToWords chunk)
  let (h0, h1, h2, h3, h4) := h
  let (a, b, c, d, e) := sha1Rounds h ws
  ((h0 + a) % 4294967296, (h1 + b) % 4294967296, (h2 + c) % 4294967296,
   (h3 + d) % 4294967296, (h4 + e) % 4294967296)

/-- Process a padded message chunk by chunk. -/
def sha1Process : (Nat × Nat × Nat × Nat × Nat) → List Nat →
    Nat × Nat × Nat × Nat × Nat
  | h, [] => h
  | h, b :: rest => sha1Process (sha1Chunk h ((b :: rest).take 64)) (rest.drop 63)
termination_by _ l => l.length
decreasing_by
  simp only [List.length_drop, List.length_cons]
  omega

/-- SHA-1 digest as five 32-bit words. -/
def sha1Words (msg : List Nat) : List Nat :=
  let (h0, h1, h2, h3, h4) :=
    sha1Process (1732584193, 4023233417, 2562383102, 271733878, 3285377520)
      (sha1Pad msg)
  [h0, h1, h2, h3, h4]

/-- Lower-case hex digit. -/
def hexDigit (n : Nat) : Char :=
  if n < 10 then Char.ofNat (48 + n) else Char.ofNat (87 + n)

/-- Fixed-width lower-case hex rendering (big-endian, `n` digits). -/
def toHexFixed : Nat → Nat → List Char
  | 0, _ => []
  | n + 1, x => toHexFixed n (x / 16) ++ [hexDigit (x % 16)]

/-- `createHash('sha1') … digest('hex')`: 40 lower-case hex characters. -/
def sha1HexChars (msg : List Nat) : List Char :=
  ((sha1Words msg).map (toHexFixed 8)).flatten

/-- Numeric value of a lower-case hex character. -/
def hexCharVal (c : Char) : Nat :=
  if 97 ≤ c.toNat then c.toNat - 87 else c.toNat - 48

/-- The fixed namespace string used for bot ids in `backend/src/index.ts`. -/
def botNamespace : String := "6ba7b810-9dad-11d1-80b4-00c04fd430c8"

/-- `generateDeterministicUUID` from `backend/src/index.ts`: SHA-1 of
`namespace + input`, formatted UUID-v5 style (version nibble forced to `5`,
variant bits forced to `10`). -/
def generateDeterministicUUID (input : String) : String :=
  let hex := sha1HexChars (utf8Bytes (botNamespace ++ input))
  let seg := fun (a b : Nat) => (hex.drop a).take (b - a)
  let vb := ((hexCharVal (hex.getD 16 '0') * 16 + hexCharVal (hex.getD 17 '0'))
              &&& 63) ||| 128
  String.mk
    (seg 0 8 ++ '-' :: seg 8 12 ++ '-' :: '5' :: seg 13 16 ++
     '-' :: (toHexFixed 2 vb ++ seg 18 20) ++ '-' :: seg 20 32)

/-! ## Bot personalities (`backend/src/index.ts`) -/

/-- Static bot personality configuration. -/
structure BotPersonality where
  id : String
  name : String
  username : String
  systemInstruction : String

/-- The five fixed bot personalities from `backend/src/index.ts`. -/
def BOT_PERSONALITIES : List BotPersonality :=
  [ { id := generateDeterministicUUID "bot_helpful",
      name := "Helpful Bot",
      username := "helpful_assistant",
      systemInstruction := "You\x27re a helpful developer commenting on a question. Write like a real person - use casual language, contractions, and personal experiences. Sound like you\x27re actually trying to help someone out. Give a real answer (2-4 sentences) with a concrete example. Be encouraging but natural, like \"Yeah, I\x27ve run into this before...\" or \"This is actually pretty common, here\x27s what I do...\". Don\x27t sound like an AI assistant - sound like a friendly coworker." },
    { id := generateDeterministicUUID "bot_mean",
      name := "Mean Bot",
      username := "sarcastic_dev",
      systemInstruction := "You\x27re a jaded developer who\x27s seen this question a million times. Be sarcastic and a bit condescending, but still helpful. Write like a real person who\x27s annoyed but can\x27t help themselves from answering. Use casual language, maybe some eye-rolling energy. Give the correct answer (2-4 sentences with an example) but with attitude. Sound like \"Ugh, this again...\" or \"Seriously? Just do X...\" - like someone who\x27s been on Stack Overflow too long but still knows their stuff." },
    { id := generateDeterministicUUID "bot_blunt",
      name := "Blunt Bot",
      username := "blunt_engineer",
      systemInstruction := "You\x27re a no-nonsense developer who gets straight to the point. Write like a real person who doesn\x27t waste words. Be direct, maybe a bit terse, but helpful. Use casual language and contractions. Give the answer (2-4 sentences with example) but skip the fluff. Sound like \"Just use X. Here\x27s how...\" or \"This is what you need...\" - like someone who\x27s busy but still wants to help." },
    { id := generateDeterministicUUID "bot_friendly",
      name := "Friendly Bot",
      username := "friendly_helper",
      systemInstruction := "You\x27re an enthusiastic developer who genuinely loves helping people. Write like a real person who\x27s excited to share knowledge. Use casual, friendly language with contractions. Be warm and encouraging, maybe use an emoji occasionally if it feels natural. Give a helpful answer (2-4 sentences with example). Sound like \"Oh I love this question!\" or \"This is so cool, here\x27s what I do...\" - like someone who\x27s genuinely happy to help." },
    { id := generateDeterministicUUID "bot_technical",
      name := "Technical Bot",
      username := "tech_expert",
      systemInstruction := "You\x27re a detail-oriented developer who loves the technical side. Write like a real person who gets excited about the details. Use casual language but include technical specifics. Reference best practices and edge cases naturally. Give a thorough answer (2-4 sentences with example). Sound like \"Actually, there\x27s a nuance here...\" or \"The thing is, X works but you should also consider Y...\" - like someone who can\x27t help but share the technical details." } ]

/-! ## Profile layer (`backend/src/services/db.ts`, `backend/src/index.ts`)

The `profiles` table is modelled as a list of rows; the external
`auth.users` table (which `profiles.id` references by foreign key) as the
list of ids it contains. -/

/-- A `profiles` row. -/
structure Profile where
  id : String
  username : String
  is_ai : Bool
  avatar_url : Option String
deriving DecidableEq

/-- `getProfile` from `db.ts`: `select … eq('id', userId) … single()`.
PostgREST `single()` succeeds exactly when one row matches; on zero rows
(`PGRST116`) or several rows the function logs and returns `null`. -/
def getProfile (userId : String) (profiles : List Profile) : Option Profile :=
  match profiles.filter (fun p => p.id = userId) with
  | [p] => some p
  | _ => none

/-- `upsertAIProfile` from `db.ts`: return the existing profile if present,
otherwise insert a row with `is_ai` forced to `true`.  The insert succeeds
only if the id exists in `auth.users` (foreign-key constraint) and no row
already has the id (unique violation; on that error the code re-reads and
returns whatever `getProfile` finds).  Errors return `null` and leave the
table unchanged. -/
def upsertAIProfile (profile : Profile) (authIds : List String)
    (profiles : List Profile) : Option Profile × List Profile :=
  match getProfile profile.id profiles with
  | some existing => (some existing, profiles)
  | none =>
    if (profiles.filter (fun p => p.id = profile.id)).isEmpty then
      if profile.id ∈ authIds then
        let row : Profile :=
          { id := profile.id, username := profile.username, is_ai := true,
            avatar_url := profile.avatar_url }
        (some row, profiles ++ [row])
      else
        (none, profiles)
    else
      (getProfile profile.id profiles, profiles)

/-- The first `n` characters of a string (`String.substring(0, n)` in JS). -/
def takeStr (n : Nat) (s : String) : String :=
  String.mk (s.data.take n)

/-- The AI branch of `ensureUserProfile` from `backend/src/index.ts`:
look the profile up, create it via `upsertAIProfile` if missing, and
return the resolved id (or `null` on failure). -/
def ensureUserProfileAI (userId : Option String) (username : Option String)
    (avatarUrl : Option String) (authIds : List String)
    (profiles : List Profile) : Option String × List Profile :=
  match userId with
  | none => (none, profiles)
  | some uid =>
    match getProfile uid profiles with
    | some _ => (some uid, profiles)
    | none =>
      let fallbackUsername := username.getD ("bot_" ++ takeStr 8 uid)
      match upsertAIProfile
          { id := uid, username := fallbackUsername, is_ai := true,
            avatar_url := avatarUrl } authIds profiles with
      | (some created, profiles2) => (some created.id, profiles2)
      | (none, profiles2) => (none, profiles2)

/-- The loop body of `initializeBotProfiles`: `ensureUserProfile` for one
bot personality (its result id is only logged; the table update is what
persists). -/
def initBotStep (authIds : List String) (profiles : List Profile)
    (bot : BotPersonality) : List Profile :=
  (ensureUserProfileAI (some bot.id) (some bot.username) none authIds profiles).2

/-- `initializeBotProfiles` from `backend/src/index.ts`: run
`ensureUserProfile` for each of the five bot personalities in order,
threading the `profiles` table through. -/
def initializeBotProfiles (authIds : List String)
    (profiles : List Profile) : List Profile :=
  BOT_PERSONALITIES.foldl (initBotStep authIds) profiles

/-! ## Duplicate detector (`backend/src/services/questionSearch.ts`) -/

/-- A row returned by the `find_similar_questions` database RPC. -/
structure SimilarQuestion where
  question_id : String
  title : String
  content : String
  search_count : Nat
  created_at : String
  matching_tags : List String
  overlap_count : Nat
deriving DecidableEq

/-- `findSimilarQuestions` from `questionSearch.ts`.  The database RPC is a
parameter; `none` models both an RPC error and a `null` data payload, each
of which the source collapses to `[]`.  On an empty tag list the RPC is not
called at all. -/
def findSimilarQuestions (tagNames : List String)
    (rpc : List String → Nat → Option (List SimilarQuestion)) :
    List SimilarQuestion :=
  if tagNames.isEmpty then []
  else
    match rpc tagNames (min 2 tagNames.length) with
    | none => []
    | some data => data

/-! ## `POST /api/ask` (`backend/src/index.ts`)

The question and answer tables are explicit state.  External effects are
parameters: the similarity RPC, the per-bot generation outcome (`none`
models any failure inside `generateBotAnswer` before the answer insert —
profile resolution or every model fallback failing), the per-bot answer
insert outcome, and fresh row ids.  Human profile resolution is abstracted
to the resolved user id (`none` = `ensureUserProfile` failed).  The tags
and question_tags tables (best-effort side steps) are not modelled. -/

/-- A `questions` row (with its `search_count` reuse counter). -/
structure QuestionRow where
  id : String
  user_id : String
  title : String
  content : String
  status : String
  search_count : Nat
deriving DecidableEq

/-- An `answers` row. -/
structure AnswerRow where
  id : String
  question_id : String
  user_id : String
  content : String
  is_accepted : Bool
deriving DecidableEq

/-- The database state the `/api/ask` handler touches. -/
structure AskDB where
  questions : List QuestionRow
  answers : List AnswerRow
deriving DecidableEq

/-- One entry of the response's `answers` array: the saved answer row plus
the bot's display name and id. -/
structure BotAnswerEntry where
  answer : AnswerRow
  botName : String
  botId : String
deriving DecidableEq

/-- The handler's response, by branch: a 4xx/5xx error, the duplicate
response (original question id, its existing answers, its bumped
`search_count`, the tag names), or the created response (saved question,
per-bot answers, `totalBots`, `successfulBots`, tag names). -/
inductive AskResult where
  | error (status : Nat) (msg : String)
  | duplicate (originalId : String) (answers : List AnswerRow)
      (searchCount : Nat) (tags : List String)
  | created (question : QuestionRow) (answers : List BotAnswerEntry)
      (totalBots : Nat) (successfulBots : Nat) (tags : List String)
deriving DecidableEq

/-- The `Promise.allSettled` fan-out plus the result-collection loop:
for each bot in order, a successful generation (`gen i = some text`)
followed by a successful `createAnswer` insert (`persist i = true`)
appends one answer row to the table and one entry to the collected list;
any failure is logged and skipped. -/
def runBots (gen : Nat → Option String) (persist : Nat → Bool)
    (freshAnswerId : Nat → String) (questionId : String) (db : AskDB) :
    List BotAnswerEntry × AskDB :=
  BOT_PERSONALITIES.enum.foldl
    (fun acc p =>
      match gen p.1 with
      | none => acc
      | some text =>
        if persist p.1 then
          let row : AnswerRow :=
            { id := freshAnswerId p.1, question_id := questionId,
              user_id := p.2.id, content := text, is_accepted := false }
          (acc.1 ++ [{ answer := row, botName := p.2.name, botId := p.2.id }],
           { acc.2 with answers := acc.2.answers ++ [row] })
        else acc)
    ([], db)

/-- `getAnswersForQuestion` from `db.ts` (rows for the question, in stored
order — the source orders by `created_at` ascending, which insertion order
models). -/
def getAnswersForQuestion (questionId : String) (db : AskDB) : List AnswerRow :=
  db.answers.filter (fun a => a.question_id = questionId)

/-- JS `String.prototype.trim`: strip whitespace from both ends. -/
def trimStr (s : String) : String :=
  String.mk
    (((s.data.dropWhile Char.isWhitespace).reverse.dropWhile
      Char.isWhitespace).reverse)

/-- The `POST /api/ask` handler from `backend/src/index.ts`: validation,
duplicate detection, question creation, bot fan-out, response assembly. -/
def askHandler (question : String) (title : Option String)
    (resolvedUser : Option String) (tagNames : List String)
    (hasApiKey : Bool)
    (rpc : List String → Nat → Option (List SimilarQuestion))
    (questionInsertOk : Bool) (freshQuestionId : String)
    (gen : Nat → Option String) (persist : Nat → Bool)
    (freshAnswerId : Nat → String) (db : AskDB) : AskResult × AskDB :=
  if trimStr question = "" then
    (.error 400 "Question is required", db)
  else if ¬ hasApiKey then
    (.error 400 "API key not configured. Please set your Gemini API key in the settings.", db)
  else
    match resolvedUser with
    | none => (.error 401 "User is required to ask a question", db)
    | some uid =>
      let questionTitle := title.getD (takeStr 100 question)
      match findSimilarQuestions tagNames rpc with
      | topMatch :: _ =>
        let db1 : AskDB :=
          { db with
            questions := db.questions.map (fun q =>
              if q.id = topMatch.question_id then
                { q with search_count := topMatch.search_count + 1 }
              else q) }
        (.duplicate topMatch.question_id
          (getAnswersForQuestion topMatch.question_id db)
          (topMatch.search_count + 1) tagNames, db1)
      | [] =>
        if ¬ questionInsertOk then
          (.error 500 "Failed to save question to database", db)
        else
          let q : QuestionRow :=
            { id := freshQuestionId, user_id := uid, title := questionTitle,
              content := trimStr question, status := "open", search_count := 0 }
          let db1 : AskDB := { db with questions := db.questions ++ [q] }
          let (entries, db2) := runBots gen persist freshAnswerId q.id db1
          if entries.isEmpty then
            (.error 500 "Failed to generate any answers from bots. Please check your API key and try again.", db2)
          else
            (.created q entries BOT_PERSONALITIES.length entries.length tagNames,
             db2)

/-! ## Votes (`backend/src/services/db.ts`) -/

/-- `vote_type`. -/
inductive VoteType where
  | upvote
  | downvote
deriving DecidableEq

/-- A `votes` row.  Exactly one of `question_id` / `answer_id` is meant to
be set; the table itself does not enforce that. -/
structure Vote where
  id : Nat
  user_id : String
  question_id : Option String
  answer_id : Option String
  vote_type : VoteType
deriving DecidableEq

/-- The rows `getUserVote`'s query matches: the user's votes on the given
target (`question_id = q` and `answer_id is null`, or symmetrically). -/
def votesMatching (userId : String) (questionId answerId : Option String)
    (votes : List Vote) : List Vote :=
  match questionId, answerId with
  | some q, _ =>
    votes.filter (fun v =>
      v.user_id = userId ∧ v.question_id = some q ∧ v.answer_id = none)
  | none, some a =>
    votes.filter (fun v =>
      v.user_id = userId ∧ v.answer_id = some a ∧ v.question_id = none)
  | none, none => []

/-- `getUserVote` from `db.ts`: the query plus `single()` — some vote
exactly when one row matches, `null` on zero (`PGRST116`) or several. -/
def getUserVote (userId : String) (questionId answerId : Option String)
    (votes : List Vote) : Option Vote :=
  match votesMatching userId questionId answerId votes with
  | [v] => some v
  | _ => none

/-- `createVote` from `db.ts`: toggle-off on a same-type prior vote,
in-place update on a different-type prior vote, insert otherwise.
Returns the resulting vote (`none` = vote removed) and the new table. -/
def createVote (userId : String) (questionId answerId : Option String)
    (voteType : VoteType) (freshId : Nat) (votes : List Vote) :
    Option Vote × List Vote :=
  match getUserVote userId questionId answerId votes with
  | some existingVote =>
    if existingVote.vote_type = voteType then
      (none, votes.filter (fun w => w.id ≠ existingVote.id))
    else
      (some { existingVote with vote_type := voteType },
       votes.map (fun w =>
         if w.id = existingVote.id then { w with vote_type := voteType } else w))
  | none =>
    let newVote : Vote :=
      { id := freshId, user_id := userId, question_id := questionId,
        answer_id := answerId, vote_type := voteType }
    (some newVote, votes ++ [newVote])

/-- The vote counts `getVoteCounts` returns. -/
structure VoteCounts where
  upvotes : Nat
  downvotes : Nat
  total : Int
deriving DecidableEq

/-- The rows `getVoteCounts`'s query matches (all users, one target). -/
def votesOnTarget (questionId answerId : Option String)
    (votes : List Vote) : List Vote :=
  match questionId, answerId with
  | some q, _ =>
    votes.filter (fun v => v.question_id = some q ∧ v.answer_id = none)
  | none, some a =>
    votes.filter (fun v => v.answer_id = some a ∧ v.question_id = none)
  | none, none => []

/-- `getVoteCounts` from `db.ts`: upvote count, downvote count, and their
difference. -/
def getVoteCounts (questionId answerId : Option String)
    (votes : List Vote) : VoteCounts :=
  let rows := votesOnTarget questionId answerId votes
  let upvotes := (rows.filter (fun v => v.vote_type = VoteType.upvote)).length
  let downvotes := (rows.filter (fun v => v.vote_type = VoteType.downvote)).length
  { upvotes := upvotes, downvotes := downvotes,
    total := (upvotes : Int) - (downvotes : Int) }

/-! ## Client shuffle and staggered reveal (`frontend/src/App.tsx`)

`Math.random()` streams are explicit parameters: a `Nat`-valued stream for
the shuffle (the source computes `Math.floor(Math.random() * (i + 1))`,
i.e. an arbitrary index in `[0, i]`, modelled as `r i % (i + 1)`), and a
rational stream in `[0, 1)` for the reveal delays. -/

/-- Swap the elements at two (in-bounds) positions of a list; out of
bounds, leave the list unchanged (the source loop only uses in-bounds
indices). -/
def swapIdx (l : List α) (i j : Nat) : List α :=
  match l.get? i, l.get? j with
  | some a, some b => (l.set i b).set j a
  | _, _ => l

/-- The Fisher–Yates loop of `shuffleArray`: `for (i = len-1; i > 0; i--)`
swap index `i` with `j = floor(random * (i + 1))`. -/
def fyLoop (r : Nat → Nat) : List α → Nat → List α
  | l, 0 => l
  | l, i + 1 => fyLoop r (swapIdx l (i + 1) (r (i + 1) % (i + 2))) i

/-- `shuffleArray` from `App.tsx`, acting on the spread copy. -/
def shuffleArray (array : List α) (r : Nat → Nat) : List α :=
  fyLoop r array (array.length - 1)

/-- `shuffleArray` including the `[...array]` copy: the result pairs the
(untouched) input array with the shuffled copy — every swap in the source
writes to the copy only. -/
def shuffleArrayRun (array : List α) (r : Nat → Nat) :
    List α × List α :=
  let shuffled := array
  (array, fyLoop r shuffled (array.length - 1))

/-- The delay (in milliseconds) the reveal effect passes to `setTimeout`
for the answer at position `i` of the shuffled list: `1000` for the first,
`1000 + i*2000 + random()*2000` after that. -/
def revealDelay (r : Nat → ℚ) (i : Nat) : ℚ :=
  if i = 0 then 1000 else 1000 + i * 2000 + r i * 2000

/-- One scheduled reveal: its `setTimeout` delay, the revealed answer, and
the ids whose comments and vote counts the callback fetches. -/
structure RevealStep (α : Type) where
  delayMs : ℚ
  answer : α
  commentsFetchedFor : String
  voteCountsFetchedFor : String

/-- The reveal effect from `App.tsx`: shuffle the answers, then schedule
one reveal per answer; each callback reveals its answer and fetches that
answer's comments (`loadComments`) and vote counts (`loadVoteCounts`). -/
def revealSteps (answers : List α) (idOf : α → String)
    (shuffleRand : Nat → Nat) (delayRand : Nat → ℚ) : List (RevealStep α) :=
  (shuffleArray answers shuffleRand).enum.map
    (fun p =>
      { delayMs := revealDelay delayRand p.1, answer := p.2,
        commentsFetchedFor := idOf p.2, voteCountsFetchedFor := idOf p.2 })

/-! ## Helper lemmas -/

/-- Swapping two positions of a list permutes it. -/
lemma swapIdx_perm (l : List α) (i j : Nat) : (swapIdx l i j).Perm l := by
  unfold swapIdx
  cases hi : l.get? i with
  | none => simp
  | some a =>
    cases hj : l.get? j with
    | none => simp
    | some b =>
      simp only
      have hi' : i < l.length := (List.get?_eq_some.mp hi).1
      have hj' : j < l.length := (List.get?_eq_some.mp hj).1
      have hia : l[i] = a := by
        have := (List.get?_eq_some.mp hi).2
        simpa [List.get_eq_getElem] using this
      have hjb : l[j] = b := by
        have := (List.get?_eq_some.mp hj).2
        simpa [List.get_eq_getElem] using this
      classical
      rw [List.perm_iff_count]
      intro x
      have hmem : a ∈ l := hia ▸ List.getElem_mem hi'
      have hcount : a = x → 1 ≤ l.count x := by
        intro hax
        exact List.count_pos_iff.mpr (hax ▸ hmem)
      rw [List.count_set (h := by simpa using hj'), List.count_set (h := hi')]
      rw [List.getElem_set (h := by simpa using hj'), hia, hjb, ite_self]
      by_cases hax : a = x <;> by_cases hbx : b = x <;> simp_all

/-- The Fisher–Yates loop permutes its input. -/
lemma fyLoop_perm (r : Nat → Nat) : ∀ (n : Nat) (l : List α), (fyLoop r l n).Perm l
  | 0, l => List.Perm.refl l
  | n + 1, l =>
    (fyLoop_perm r n (swapIdx l (n + 1) (r (n + 1) % (n + 2)))).trans
      (swapIdx_perm l (n + 1) (r (n + 1) % (n + 2)))

/-- `shuffleArray` permutes its input. -/
lemma shuffleArray_perm (array : List α) (r : Nat → Nat) :
    (shuffleArray array r).Perm array :=
  fyLoop_perm r (array.length - 1) array

/-! ## Claims -/

/-- Claim C10: for every input array, `shuffleArray` returns a permutation
of the input — same length, same elements with the same multiplicities
(`List.Perm`) — and the input array itself (the first component of the run,
which the source never writes to after taking the spread copy) is
unmodified. -/
theorem C10_shuffleArray_perm (array : List α) (r : Nat → Nat) :
    (shuffleArrayRun array r).2.Perm array ∧
    (shuffleArrayRun array r).2.length = array.length ∧
    (shuffleArrayRun array r).1 = array := by
  refine ⟨shuffleArray_perm array r, (shuffleArray_perm array r).length_eq, rfl⟩

/-- Claim C2: for every non-empty list of tag names, `findSimilarQuestions`
invokes the similarity search with overlap threshold exactly
`min(2, tagNames.length)` — its result is whatever that RPC call returns
(`[]` on error/null). -/
theorem C2_overlap_threshold (tagNames : List String)
    (rpc : List String → Nat → Option (List SimilarQuestion))
    (h : tagNames ≠ []) :
    findSimilarQuestions tagNames rpc =
      (rpc tagNames (min 2 tagNames.length)).getD [] := by
  unfold findSimilarQuestions
  rw [if_neg (by simpa using h)]
  cases rpc tagNames (min 2 tagNames.length) <;> rfl

/-- Witness for C2 at a concrete input. -/
theorem C2_overlap_threshold_witness :
    (["css", "html"] : List String) ≠ [] ∧
    findSimilarQuestions ["css", "html"] (fun _ _ => some []) =
      ((fun (_ : List String) (_ : Nat) =>
        some ([] : List SimilarQuestion)) ["css", "html"]
        (min 2 (["css", "html"] : List String).length)).getD [] :=
  ⟨by decide, C2_overlap_threshold ["css", "html"] (fun _ _ => some []) (by decide)⟩

/-- Claim C4: on an empty tag list `findSimilarQuestions` returns `[]`
whatever the search RPC would answer (it is never consulted), and the
`/api/ask` handler therefore never takes the duplicate branch for an
untagged question — it never returns the duplicate response. -/
theorem C4_empty_tags_no_duplicate :
    (∀ rpc, findSimilarQuestions [] rpc = []) ∧
    (∀ (question : String) (title : Option String)
       (resolvedUser : Option String) (hasApiKey : Bool) rpc
       (questionInsertOk : Bool) (freshQuestionId : String)
       (gen : Nat → Option String) (persist : Nat → Bool)
       (freshAnswerId : Nat → String) (db : AskDB)
       (oid : String) (ans : List AnswerRow) (sc : Nat) (tg : List String),
       (askHandler question title resolvedUser [] hasApiKey rpc
          questionInsertOk freshQuestionId gen persist freshAnswerId db).1 ≠
         AskResult.duplicate oid ans sc tg) := by
  constructor
  · intro rpc
    rfl
  · intro question title resolvedUser hasApiKey rpc questionInsertOk
      freshQuestionId gen persist freshAnswerId db oid ans sc tg
    unfold askHandler
    have hsim : findSimilarQuestions [] rpc = [] := rfl
    split
    · simp
    · split
      · simp
      · cases resolvedUser with
        | none => simp
        | some uid =>
          simp only [hsim]
          split
          · simp
          · split <;> simp

/-- A concrete `Math.random()` stream for the reveal delays: `0.9` on the
second draw, `0` afterwards (every value in `[0, 1)`). -/
def dr01 : Nat → ℚ := fun i => if i = 1 then 9 / 10 else 0

/-- Counterexample to claim C9 as stated: with three answers and the
legitimate randomness stream `dr01`, the reveals are scheduled at
1000 ms, 4800 ms and 5000 ms — the second and third reveals are only
200 ms apart, not within the claimed 2-to-4-second range. -/
theorem C9_reveal_gap_counterexample :
    (0 ≤ dr01 1 ∧ dr01 1 < 1) ∧ (0 ≤ dr01 2 ∧ dr01 2 < 1) ∧
    ((revealSteps ["a1", "a2", "a3"] (fun s => s) (fun _ => 0) dr01).map
        (fun s => s.delayMs)).getD 2 0 -
      ((revealSteps ["a1", "a2", "a3"] (fun s => s) (fun _ => 0) dr01).map
        (fun s => s.delayMs)).getD 1 0 = 200 ∧
    ¬ (2000 ≤ (200 : ℚ) ∧ (200 : ℚ) ≤ 4000) := by
  refine ⟨⟨by norm_num [dr01], by norm_num [dr01]⟩,
    ⟨by norm_num [dr01], by norm_num [dr01]⟩, ?_, by norm_num⟩
  norm_num [revealSteps, shuffleArray, fyLoop, swapIdx, revealDelay, dr01,
    List.enum, List.enumFrom]

/-- Claim C9, amended to what the code does: the reveal order is a shuffle
of the received answers; the first reveal is scheduled after a fixed
1000 ms; the gap between the first and second reveals lies in [2000, 4000) ms;
every later consecutive gap is positive and below 4000 ms (it can be below
2000 ms, since reveal `i ≥ 1` is scheduled at `1000 + 2000·i + 2000·rᵢ` with
independent `rᵢ ∈ [0, 1)`); and each reveal fetches that answer's comments
and vote counts. -/
theorem C9_staggered_reveal_amended {α : Type} (answers : List α)
    (idOf : α → String) (sr : Nat → Nat) (r : Nat → ℚ)
    (hr : ∀ i, 0 ≤ r i ∧ r i < 1) :
    revealDelay r 0 = 1000 ∧
    (2000 ≤ revealDelay r 1 - revealDelay r 0 ∧
      revealDelay r 1 - revealDelay r 0 < 4000) ∧
    (∀ i, 1 ≤ i →
      0 < revealDelay r (i + 1) - revealDelay r i ∧
      revealDelay r (i + 1) - revealDelay r i < 4000) ∧
    ((revealSteps answers idOf sr r).map (fun s => s.answer)).Perm answers ∧
    (revealSteps answers idOf sr r).map (fun s => s.delayMs) =
      (List.range answers.length).map (revealDelay r) ∧
    (∀ s ∈ revealSteps answers idOf sr r,
      s.commentsFetchedFor = idOf s.answer ∧
      s.voteCountsFetchedFor = idOf s.answer) := by
  refine ⟨rfl, ?_, ?_, ?_, ?_, ?_⟩
  · have h1 := hr 1
    simp only [revealDelay, if_pos rfl, if_neg (by norm_num : (1 : Nat) ≠ 0)]
    push_cast
    constructor <;> nlinarith [h1.1, h1.2]
  · intro i hi
    have h1 := hr i
    have h2 := hr (i + 1)
    simp only [revealDelay, if_neg (by omega : i + 1 ≠ 0),
      if_neg (by omega : i ≠ 0)]
    push_cast
    constructor <;> nlinarith [h1.1, h1.2, h2.1, h2.2]
  · have h : (revealSteps answers idOf sr r).map (fun s => s.answer) =
        (shuffleArray answers sr).enum.map Prod.snd := by
      simp only [revealSteps, List.map_map]
      rfl
    rw [h, List.enum_map_snd]
    exact shuffleArray_perm answers sr
  · have hlen : (shuffleArray answers sr).length = answers.length :=
      (shuffleArray_perm answers sr).length_eq
    have h : (revealSteps answers idOf sr r).map (fun s => s.delayMs) =
        ((shuffleArray answers sr).enum.map Prod.fst).map (revealDelay r) := by
      simp only [revealSteps, List.map_map]
      rfl
    rw [h, List.enum_map_fst, hlen]
  · intro s hs
    simp only [revealSteps, List.mem_map] at hs
    obtain ⟨p, -, rfl⟩ := hs
    exact ⟨rfl, rfl⟩

/-- The all-zero randomness stream, used to witness C9's amended theorem. -/
def drZero : Nat → ℚ := fun _ => 0

/-- Witness for the amended C9 at a concrete input. -/
theorem C9_staggered_reveal_witness :
    (∀ i, 0 ≤ drZero i ∧ drZero i < 1) ∧
    (revealDelay drZero 0 = 1000 ∧
    (2000 ≤ revealDelay drZero 1 - revealDelay drZero 0 ∧
      revealDelay drZero 1 - revealDelay drZero 0 < 4000) ∧
    (∀ i, 1 ≤ i →
      0 < revealDelay drZero (i + 1) - revealDelay drZero i ∧
      revealDelay drZero (i + 1) - revealDelay drZero i < 4000) ∧
    ((revealSteps ["a1", "a2"] (fun s => s) (fun _ => 0) drZero).map
        (fun s => s.answer)).Perm ["a1", "a2"] ∧
    (revealSteps ["a1", "a2"] (fun s => s) (fun _ => 0) drZero).map
        (fun s => s.delayMs) =
      (List.range (["a1", "a2"] : List String).length).map (revealDelay drZero) ∧
    (∀ s ∈ revealSteps ["a1", "a2"] (fun s => s) (fun _ => 0) drZero,
      s.commentsFetchedFor = s.answer ∧ s.voteCountsFetchedFor = s.answer)) :=
  ⟨fun i => ⟨le_refl 0, by norm_num [drZero]⟩,
    C9_staggered_reveal_amended ["a1", "a2"] (fun s => s) (fun _ => 0) drZero
      (fun i => ⟨le_refl 0, by norm_num [drZero]⟩)⟩

/-- `votesMatching` distributes over list append. -/
lemma votesMatching_append (userId : String) (questionId answerId : Option String)
    (l1 l2 : List Vote) :
    votesMatching userId questionId answerId (l1 ++ l2) =
      votesMatching userId questionId answerId l1 ++
      votesMatching userId questionId answerId l2 := by
  unfold votesMatching
  rcases questionId with - | q <;> rcases answerId with - | a <;>
    simp [List.filter_append]

/-- `votesMatching` commutes with a row filter. -/
lemma votesMatching_filter (userId : String) (questionId answerId : Option String)
    (g : Vote → Bool) (l : List Vote) :
    votesMatching userId questionId answerId (l.filter g) =
      (votesMatching userId questionId answerId l).filter g := by
  unfold votesMatching
  rcases questionId with - | q <;> rcases answerId with - | a <;>
    simp only [List.filter_filter] <;>
    try exact (List.filter_congr (fun x _ => Bool.and_comm _ _)).symm
  simp

/-- A vote-type-only update commutes with `votesMatching` (the matching
predicate never inspects `vote_type`). -/
lemma votesMatching_map_update (userId : String)
    (questionId answerId : Option String) (i : Nat) (vt : VoteType)
    (l : List Vote) :
    votesMatching userId questionId answerId
        (l.map (fun w => if w.id = i then { w with vote_type := vt } else w)) =
      (votesMatching userId questionId answerId l).map
        (fun w => if w.id = i then { w with vote_type := vt } else w) := by
  unfold votesMatching
  have hp : ∀ (p : Vote → Bool),
      (∀ w : Vote, p { w with vote_type := vt } = p w) →
      List.filter p (l.map (fun w => if w.id = i then { w with vote_type := vt } else w)) =
        (List.filter p l).map (fun w => if w.id = i then { w with vote_type := vt } else w) := by
    intro p hstable
    rw [List.filter_map]
    congr 1
    apply List.filter_congr
    intro w _
    show p (if w.id = i then { w with vote_type := vt } else w) = p w
    by_cases h : w.id = i
    · rw [if_pos h]
      exact hstable w
    · rw [if_neg h]
  rcases questionId with - | q <;> rcases answerId with - | a
  · rfl
  · exact hp _ (fun w => rfl)
  · exact hp _ (fun w => rfl)
  · exact hp _ (fun w => rfl)

/-- Claim C5: `createVote` with exactly one of question/answer target set:
no prior vote ⇒ insert the new vote and return it; prior vote of the same
type ⇒ delete it and return no vote; prior vote of a different type ⇒
update it in place to the new type and return it; and any call leaves at
most one vote row per (user, target). -/
theorem C5_createVote_behavior (userId : String)
    (questionId answerId : Option String) (voteType : VoteType)
    (freshId : Nat) (votes : List Vote)
    (hx : (∃ q, questionId = some q ∧ answerId = none) ∨
          (questionId = none ∧ ∃ a, answerId = some a)) :
    (votesMatching userId questionId answerId votes = [] →
      createVote userId questionId answerId voteType freshId votes =
        (some { id := freshId, user_id := userId, question_id := questionId,
                answer_id := answerId, vote_type := voteType },
         votes ++ [{ id := freshId, user_id := userId,
                     question_id := questionId, answer_id := answerId,
                     vote_type := voteType }])) ∧
    (∀ v, votesMatching userId questionId answerId votes = [v] →
      v.vote_type = voteType →
      createVote userId questionId answerId voteType freshId votes =
        (none, votes.filter (fun w => w.id ≠ v.id))) ∧
    (∀ v, votesMatching userId questionId answerId votes = [v] →
      v.vote_type ≠ voteType →
      createVote userId questionId answerId voteType freshId votes =
        (some { v with vote_type := voteType },
         votes.map (fun w =>
           if w.id = v.id then { w with vote_type := voteType } else w))) ∧
    ((votesMatching userId questionId answerId votes).length ≤ 1 →
      (votesMatching userId questionId answerId
        (createVote userId questionId answerId voteType freshId votes).2).length ≤ 1) := by
  refine ⟨?_, ?_, ?_, ?_⟩
  · intro hempty
    unfold createVote getUserVote
    rw [hempty]
  · intro v hone hsame
    unfold createVote getUserVote
    rw [hone]
    simp [hsame]
  · intro v hone hdiff
    unfold createVote getUserVote
    rw [hone]
    simp [hdiff]
  · intro hlen
    rcases hm : votesMatching userId questionId answerId votes with - | ⟨v, rest⟩
    · unfold createVote getUserVote
      rw [hm]
      simp only
      rw [votesMatching_append, hm]
      have hnv : votesMatching userId questionId answerId
          [{ id := freshId, user_id := userId, question_id := questionId,
             answer_id := answerId, vote_type := voteType }] =
          [{ id := freshId, user_id := userId, question_id := questionId,
             answer_id := answerId, vote_type := voteType }] := by
        rcases hx with ⟨q, hq, ha⟩ | ⟨hq, a, ha⟩ <;> subst hq <;> subst ha <;>
          simp [votesMatching]
      rw [hnv]
      simp
    · rcases rest with - | ⟨w, rest2⟩
      · by_cases hsame : v.vote_type = voteType
        · have e : createVote userId questionId answerId voteType freshId votes =
              (none, votes.filter (fun w => w.id ≠ v.id)) := by
            unfold createVote getUserVote
            rw [hm]
            simp [hsame]
          rw [e]
          show (votesMatching userId questionId answerId
            (List.filter (fun w => w.id ≠ v.id) votes)).length ≤ 1
          rw [votesMatching_filter, hm]
          exact le_trans (List.length_filter_le _ _) (by simp)
        · have e : createVote userId questionId answerId voteType freshId votes =
              (some { v with vote_type := voteType },
               votes.map (fun w =>
                 if w.id = v.id then { w with vote_type := voteType } else w)) := by
            unfold createVote getUserVote
            rw [hm]
            simp [hsame]
          rw [e]
          show (votesMatching userId questionId answerId
            (List.map (fun w =>
              if w.id = v.id then { w with vote_type := voteType } else w)
              votes)).length ≤ 1
          rw [votesMatching_map_update, hm]
          simp
      · rw [hm] at hlen
        simp at hlen

/-- Witness for C5 at a concrete input. -/
theorem C5_createVote_behavior_witness :
    ((∃ q, (some "q1" : Option String) = some q ∧ (none : Option String) = none) ∨
      ((some "q1" : Option String) = none ∧
        ∃ a, (none : Option String) = some a)) ∧
    ((votesMatching "u" (some "q1") none [] = [] →
      createVote "u" (some "q1") none VoteType.upvote 7 [] =
        (some { id := 7, user_id := "u", question_id := some "q1",
                answer_id := none, vote_type := VoteType.upvote },
         [] ++ [{ id := 7, user_id := "u", question_id := some "q1",
                  answer_id := none, vote_type := VoteType.upvote }])) ∧
    (∀ v, votesMatching "u" (some "q1") none [] = [v] →
      v.vote_type = VoteType.upvote →
      createVote "u" (some "q1") none VoteType.upvote 7 [] =
        (none, List.filter (fun w => w.id ≠ v.id) [])) ∧
    (∀ v, votesMatching "u" (some "q1") none [] = [v] →
      v.vote_type ≠ VoteType.upvote →
      createVote "u" (some "q1") none VoteType.upvote 7 [] =
        (some { v with vote_type := VoteType.upvote },
         List.map (fun w =>
           if w.id = v.id then { w with vote_type := VoteType.upvote } else w) [])) ∧
    ((votesMatching "u" (some "q1") none ([] : List Vote)).length ≤ 1 →
      (votesMatching "u" (some "q1") none
        (createVote "u" (some "q1") none VoteType.upvote 7 []).2).length ≤ 1)) :=
  ⟨Or.inl ⟨"q1", rfl, rfl⟩,
    C5_createVote_behavior "u" (some "q1") none VoteType.upvote 7 []
      (Or.inl ⟨"q1", rfl, rfl⟩)⟩

/-- Claim C6: starting with no vote by the user on the target, voting twice
with the same type returns the table to its pre-vote state exactly, and in
particular `getVoteCounts` is unchanged. -/
theorem C6_vote_toggle_roundtrip (userId : String)
    (questionId answerId : Option String) (voteType : VoteType)
    (freshId : Nat) (votes : List Vote)
    (hx : (∃ q, questionId = some q ∧ answerId = none) ∨
          (questionId = none ∧ ∃ a, answerId = some a))
    (hempty : votesMatching userId questionId answerId votes = [])
    (hfresh : ∀ v ∈ votes, v.id ≠ freshId) :
    (createVote userId questionId answerId voteType freshId
       (createVote userId questionId answerId voteType freshId votes).2).2 =
      votes ∧
    getVoteCounts questionId answerId
      (createVote userId questionId answerId voteType freshId
        (createVote userId questionId answerId voteType freshId votes).2).2 =
      getVoteCounts questionId answerId votes := by
  have h1 : (createVote userId questionId answerId voteType freshId votes).2 =
      votes ++ [{ id := freshId, user_id := userId, question_id := questionId,
                  answer_id := answerId, vote_type := voteType }] := by
    unfold createVote getUserVote
    rw [hempty]
  have hmatch2 : votesMatching userId questionId answerId
      (votes ++ [{ id := freshId, user_id := userId, question_id := questionId,
                   answer_id := answerId, vote_type := voteType }]) =
      [{ id := freshId, user_id := userId, question_id := questionId,
         answer_id := answerId, vote_type := voteType }] := by
    rw [votesMatching_append, hempty]
    rcases hx with ⟨q, hq, ha⟩ | ⟨hq, a, ha⟩ <;> subst hq <;> subst ha <;>
      simp [votesMatching]
  have h2 : (createVote userId questionId answerId voteType freshId
      (votes ++ [{ id := freshId, user_id := userId, question_id := questionId,
                   answer_id := answerId, vote_type := voteType }])).2 =
      votes := by
    unfold createVote getUserVote
    rw [hmatch2]
    simp only [if_pos rfl]
    rw [List.filter_append]
    simp
    intro a ha
    exact hfresh a ha
  rw [h1, h2]
  exact ⟨rfl, rfl⟩

/-- Witness for C6 at a concrete input. -/
theorem C6_vote_toggle_roundtrip_witness :
    ((∃ q, (some "q1" : Option String) = some q ∧ (none : Option String) = none) ∨
      ((some "q1" : Option String) = none ∧
        ∃ a, (none : Option String) = some a)) ∧
    votesMatching "u" (some "q1") none
      [{ id := 3, user_id := "w", question_id := some "q1", answer_id := none,
         vote_type := VoteType.downvote }] = [] ∧
    (∀ v ∈ [({ id := 3, user_id := "w", question_id := some "q1",
               answer_id := none, vote_type := VoteType.downvote } : Vote)],
      v.id ≠ 7) ∧
    ((createVote "u" (some "q1") none VoteType.upvote 7
       (createVote "u" (some "q1") none VoteType.upvote 7
         [{ id := 3, user_id := "w", question_id := some "q1",
            answer_id := none, vote_type := VoteType.downvote }]).2).2 =
      [{ id := 3, user_id := "w", question_id := some "q1", answer_id := none,
         vote_type := VoteType.downvote }] ∧
    getVoteCounts (some "q1") none
      (createVote "u" (some "q1") none VoteType.upvote 7
        (createVote "u" (some "q1") none VoteType.upvote 7
          [{ id := 3, user_id := "w", question_id := some "q1",
             answer_id := none, vote_type := VoteType.downvote }]).2).2 =
      getVoteCounts (some "q1") none
        [{ id := 3, user_id := "w", question_id := some "q1", answer_id := none,
           vote_type := VoteType.downvote }]) :=
  ⟨Or.inl ⟨"q1", rfl, rfl⟩, by decide, by decide,
    C6_vote_toggle_roundtrip "u" (some "q1") none VoteType.upvote 7
      [{ id := 3, user_id := "w", question_id := some "q1", answer_id := none,
         vote_type := VoteType.downvote }]
      (Or.inl ⟨"q1", rfl, rfl⟩) (by decide) (by decide)⟩

/-- The per-bot outcome of the fan-out loop body: `some` entry exactly when
the bot's generation succeeded and its answer insert succeeded. -/
def botEntry (gen : Nat → Option String) (persist : Nat → Bool)
    (freshAnswerId : Nat → String) (questionId : String)
    (p : Nat × BotPersonality) : Option BotAnswerEntry :=
  match gen p.1 with
  | none => none
  | some text =>
    if persist p.1 then
      some { answer := { id := freshAnswerId p.1, question_id := questionId,
                         user_id := p.2.id, content := text,
                         is_accepted := false },
             botName := p.2.name, botId := p.2.id }
    else none

/-- The response entries the fan-out collects. -/
def successfulEntries (gen : Nat → Option String) (persist : Nat → Bool)
    (freshAnswerId : Nat → String) (questionId : String) :
    List BotAnswerEntry :=
  BOT_PERSONALITIES.enum.filterMap (botEntry gen persist freshAnswerId questionId)

/-- Whether bot `i`'s generation and persistence both succeeded. -/
def botCallSucceeded (gen : Nat → Option String) (persist : Nat → Bool)
    (i : Nat) : Bool :=
  (gen i).isSome && persist i

/-- The fan-out fold collects exactly the per-bot successes, in bot order,
and appends exactly the corresponding answer rows to the table. -/
lemma runBots_foldl (gen : Nat → Option String) (persist : Nat → Bool)
    (freshAnswerId : Nat → String) (questionId : String) :
    ∀ (l : List (Nat × BotPersonality)) (es : List BotAnswerEntry) (db : AskDB),
    l.foldl
      (fun acc p =>
        match gen p.1 with
        | none => acc
        | some text =>
          if persist p.1 then
            let row : AnswerRow :=
              { id := freshAnswerId p.1, question_id := questionId,
                user_id := p.2.id, content := text, is_accepted := false }
            (acc.1 ++ [{ answer := row, botName := p.2.name, botId := p.2.id }],
             { acc.2 with answers := acc.2.answers ++ [row] })
          else acc)
      (es, db) =
    (es ++ l.filterMap (botEntry gen persist freshAnswerId questionId),
     AskDB.mk db.questions
       (db.answers ++ List.map (fun e => e.answer)
         (l.filterMap (botEntry gen persist freshAnswerId questionId))))
  | [], es, db => by simp
  | p :: rest, es, db => by
    rw [List.foldl_cons]
    cases hg : gen p.1 with
    | none =>
      simp only
      rw [runBots_foldl gen persist freshAnswerId questionId rest es db]
      simp [List.filterMap_cons, botEntry, hg]
    | some text =>
      simp only
      by_cases hp : persist p.1
      · simp only [if_pos hp]
        rw [runBots_foldl gen persist freshAnswerId questionId rest]
        simp [List.filterMap_cons, botEntry, hg, hp, List.append_assoc]
      · simp only [if_neg hp]
        rw [runBots_foldl gen persist freshAnswerId questionId rest es db]
        simp [List.filterMap_cons, botEntry, hg, hp]

/-- `runBots` in closed form. -/
lemma runBots_eq (gen : Nat → Option String) (persist : Nat → Bool)
    (freshAnswerId : Nat → String) (questionId : String) (db : AskDB) :
    runBots gen persist freshAnswerId questionId db =
      (successfulEntries gen persist freshAnswerId questionId,
       AskDB.mk db.questions
         (db.answers ++ List.map (fun e => e.answer)
           (successfulEntries gen persist freshAnswerId questionId))) := by
  unfold runBots successfulEntries
  rw [runBots_foldl]
  simp

/-- `filterMap` length as a `countP`. -/
lemma length_filterMap_eq_countP (f : α → Option β) :
    ∀ (l : List α), (l.filterMap f).length = l.countP (fun x => (f x).isSome)
  | [] => rfl
  | x :: xs => by
    cases h : f x <;>
      simp [List.filterMap_cons, h, List.countP_cons,
        length_filterMap_eq_countP f xs]

/-- `botEntry` succeeds exactly when generation and persistence succeed. -/
lemma botEntry_isSome (gen : Nat → Option String) (persist : Nat → Bool)
    (freshAnswerId : Nat → String) (questionId : String)
    (p : Nat × BotPersonality) :
    (botEntry gen persist freshAnswerId questionId p).isSome =
      botCallSucceeded gen persist p.1 := by
  unfold botEntry botCallSucceeded
  cases gen p.1 <;> by_cases hp : persist p.1 <;> simp [hp]

/-- The number of collected entries is the number of bots whose generation
and persistence both succeeded. -/
lemma successfulEntries_length (gen : Nat → Option String)
    (persist : Nat → Bool) (freshAnswerId : Nat → String)
    (questionId : String) :
    (successfulEntries gen persist freshAnswerId questionId).length =
      (List.range BOT_PERSONALITIES.length).countP
        (botCallSucceeded gen persist) := by
  unfold successfulEntries
  rw [length_filterMap_eq_countP]
  have h1 : (List.range BOT_PERSONALITIES.length).countP
      (botCallSucceeded gen persist) =
      (BOT_PERSONALITIES.enum.map Prod.fst).countP
        (botCallSucceeded gen persist) := by
    rw [List.enum_map_fst]
  rw [h1, List.countP_map]
  apply List.countP_congr
  intro p _
  have h := botEntry_isSome gen persist freshAnswerId questionId p
  simp only [Function.comp]
  rw [h]

/-- Claim C1: on the non-duplicate path of `POST /api/ask`, the five bot
calls have all-settled semantics — the response carries exactly one entry
per bot whose generation and persistence succeeded (the `successfulEntries`
filter over the bot list), `successfulBots` is the length of that list,
`totalBots` is `BOT_PERSONALITIES.length = 5`, and one bot's failure never
drops another bot's entry. -/
theorem C1_fanout_all_settled (question : String) (title : Option String)
    (resolvedUser : Option String) (uid : String) (tagNames : List String)
    (rpc : List String → Nat → Option (List SimilarQuestion))
    (freshQuestionId : String) (gen : Nat → Option String)
    (persist : Nat → Bool) (freshAnswerId : Nat → String) (db : AskDB)
    (htrim : trimStr question ≠ "")
    (huser : resolvedUser = some uid)
    (hdup : findSimilarQuestions tagNames rpc = [])
    (hsucc : 0 < (List.range BOT_PERSONALITIES.length).countP
        (botCallSucceeded gen persist)) :
    askHandler question title resolvedUser tagNames true rpc true
        freshQuestionId gen persist freshAnswerId db =
      (AskResult.created
        (QuestionRow.mk freshQuestionId uid (title.getD (takeStr 100 question))
          (trimStr question) "open" 0)
        (successfulEntries gen persist freshAnswerId freshQuestionId)
        BOT_PERSONALITIES.length
        (successfulEntries gen persist freshAnswerId freshQuestionId).length
        tagNames,
       AskDB.mk
         (db.questions ++ [QuestionRow.mk freshQuestionId uid
           (title.getD (takeStr 100 question)) (trimStr question) "open" 0])
         (db.answers ++ List.map (fun e => e.answer)
           (successfulEntries gen persist freshAnswerId freshQuestionId))) ∧
    (successfulEntries gen persist freshAnswerId freshQuestionId).length =
      (List.range BOT_PERSONALITIES.length).countP
        (botCallSucceeded gen persist) ∧
    BOT_PERSONALITIES.length = 5 := by
  subst huser
  have hlen := successfulEntries_length gen persist freshAnswerId freshQuestionId
  have hne : (successfulEntries gen persist freshAnswerId freshQuestionId).isEmpty
      = false := by
    rcases h : successfulEntries gen persist freshAnswerId freshQuestionId with
      - | ⟨e, es⟩
    · rw [h] at hlen
      simp at hlen
      omega
    · rfl
  refine ⟨?_, hlen, by rfl⟩
  unfold askHandler
  rw [if_neg htrim, if_neg (by simp)]
  simp only [hdup]
  rw [if_neg (by simp)]
  rw [runBots_eq]
  simp only [hne]
  rfl

/-- Witness for C1: the concrete 2-fail / 3-succeed scenario — bots 0, 2, 4
succeed, bots 1 and 3 fail — yields exactly 3 entries and
`successfulBots = 3`. -/
theorem C1_fanout_all_settled_witness :
    trimStr "how do I center a div" ≠ "" ∧
    (some "user-1" : Option String) = some "user-1" ∧
    findSimilarQuestions ["css", "html"] (fun _ _ => some []) = [] ∧
    0 < (List.range BOT_PERSONALITIES.length).countP
      (botCallSucceeded (fun i => if i % 2 = 0 then some "answer text" else none)
        (fun _ => true)) ∧
    (askHandler "how do I center a div" none (some "user-1") ["css", "html"]
        true (fun _ _ => some []) true "q-1"
        (fun i => if i % 2 = 0 then some "answer text" else none)
        (fun _ => true) (fun i => toString i) (AskDB.mk [] []) =
      (AskResult.created
        (QuestionRow.mk "q-1" "user-1"
          ((none : Option String).getD (takeStr 100 "how do I center a div"))
          (trimStr "how do I center a div") "open" 0)
        (successfulEntries (fun i => if i % 2 = 0 then some "answer text" else none)
          (fun _ => true) (fun i => toString i) "q-1")
        BOT_PERSONALITIES.length
        (successfulEntries (fun i => if i % 2 = 0 then some "answer text" else none)
          (fun _ => true) (fun i => toString i) "q-1").length
        ["css", "html"],
       AskDB.mk
         ([] ++ [QuestionRow.mk "q-1" "user-1"
           ((none : Option String).getD (takeStr 100 "how do I center a div"))
           (trimStr "how do I center a div") "open" 0])
         ([] ++ List.map (fun e => e.answer)
           (successfulEntries
             (fun i => if i % 2 = 0 then some "answer text" else none)
             (fun _ => true) (fun i => toString i) "q-1"))) ∧
      (successfulEntries (fun i => if i % 2 = 0 then some "answer text" else none)
          (fun _ => true) (fun i => toString i) "q-1").length =
        (List.range BOT_PERSONALITIES.length).countP
          (botCallSucceeded
            (fun i => if i % 2 = 0 then some "answer text" else none)
            (fun _ => true)) ∧
      BOT_PERSONALITIES.length = 5) ∧
    (successfulEntries (fun i => if i % 2 = 0 then some "answer text" else none)
        (fun _ => true) (fun i => toString i) "q-1").length = 3 :=
  ⟨by decide, rfl, rfl,
    by
      show 0 < (List.range BOT_PERSONALITIES.length).countP _
      rw [show BOT_PERSONALITIES.length = 5 from rfl]
      decide,
    C1_fanout_all_settled "how do I center a div" none (some "user-1") "user-1"
      ["css", "html"] (fun _ _ => some []) "q-1"
      (fun i => if i % 2 = 0 then some "answer text" else none)
      (fun _ => true) (fun i => toString i) (AskDB.mk [] [])
      (by decide) rfl rfl
      (by
        show 0 < (List.range BOT_PERSONALITIES.length).countP _
        rw [show BOT_PERSONALITIES.length = 5 from rfl]
        decide),
    by
      rw [successfulEntries_length, show BOT_PERSONALITIES.length = 5 from rfl]
      decide⟩

/-- Claim C7: if zero of the five bot calls succeed on the non-duplicate
path, the request fails with a 500 error, no answers are returned or
persisted (the answers table is unchanged), while the question row created
in the preceding step still exists. -/
theorem C7_zero_success_fails (question : String) (title : Option String)
    (resolvedUser : Option String) (uid : String) (tagNames : List String)
    (rpc : List String → Nat → Option (List SimilarQuestion))
    (freshQuestionId : String) (gen : Nat → Option String)
    (persist : Nat → Bool) (freshAnswerId : Nat → String) (db : AskDB)
    (htrim : trimStr question ≠ "")
    (huser : resolvedUser = some uid)
    (hdup : findSimilarQuestions tagNames rpc = [])
    (hfail : (List.range BOT_PERSONALITIES.length).countP
        (botCallSucceeded gen persist) = 0) :
    (askHandler question title resolvedUser tagNames true rpc true
        freshQuestionId gen persist freshAnswerId db).1 =
      AskResult.error 500
        "Failed to generate any answers from bots. Please check your API key and try again." ∧
    (askHandler question title resolvedUser tagNames true rpc true
        freshQuestionId gen persist freshAnswerId db).2.answers = db.answers ∧
    (askHandler question title resolvedUser tagNames true rpc true
        freshQuestionId gen persist freshAnswerId db).2.questions =
      db.questions ++ [QuestionRow.mk freshQuestionId uid
        (title.getD (takeStr 100 question)) (trimStr question) "open" 0] := by
  subst huser
  have hlen := successfulEntries_length gen persist freshAnswerId freshQuestionId
  have hempty : successfulEntries gen persist freshAnswerId freshQuestionId
      = [] := by
    rw [← List.length_eq_zero, hlen, hfail]
  have e : askHandler question title (some uid) tagNames true rpc true
      freshQuestionId gen persist freshAnswerId db =
      (AskResult.error 500
        "Failed to generate any answers from bots. Please check your API key and try again.",
       AskDB.mk
         (db.questions ++ [QuestionRow.mk freshQuestionId uid
           (title.getD (takeStr 100 question)) (trimStr question) "open" 0])
         db.answers) := by
    unfold askHandler
    rw [if_neg htrim, if_neg (by simp)]
    simp only [hdup]
    rw [if_neg (by simp)]
    rw [runBots_eq]
    rw [hempty]
    simp
  rw [e]
  exact ⟨rfl, rfl, rfl⟩

/-- Witness for C7: all five bots fail. -/
theorem C7_zero_success_fails_witness :
    trimStr "q" ≠ "" ∧
    (some "user-1" : Option String) = some "user-1" ∧
    findSimilarQuestions ["css"] (fun _ _ => none) = [] ∧
    (List.range BOT_PERSONALITIES.length).countP
      (botCallSucceeded (fun _ => none) (fun _ => true)) = 0 ∧
    ((askHandler "q" none (some "user-1") ["css"] true (fun _ _ => none) true
        "q-1" (fun _ => none) (fun _ => true) (fun i => toString i)
        (AskDB.mk [] [])).1 =
      AskResult.error 500
        "Failed to generate any answers from bots. Please check your API key and try again." ∧
    (askHandler "q" none (some "user-1") ["css"] true (fun _ _ => none) true
        "q-1" (fun _ => none) (fun _ => true) (fun i => toString i)
        (AskDB.mk [] [])).2.answers = ([] : List AnswerRow) ∧
    (askHandler "q" none (some "user-1") ["css"] true (fun _ _ => none) true
        "q-1" (fun _ => none) (fun _ => true) (fun i => toString i)
        (AskDB.mk [] [])).2.questions =
      [] ++ [QuestionRow.mk "q-1" "user-1"
        ((none : Option String).getD (takeStr 100 "q")) (trimStr "q")
        "open" 0]) :=
  ⟨by decide, rfl, rfl,
    by
      show (List.range BOT_PERSONALITIES.length).countP _ = 0
      rw [show BOT_PERSONALITIES.length = 5 from rfl]
      decide,
    C7_zero_success_fails "q" none (some "user-1") "user-1" ["css"]
      (fun _ _ => none) "q-1" (fun _ => none) (fun _ => true)
      (fun i => toString i) (AskDB.mk [] []) (by decide) rfl rfl
      (by
        show (List.range BOT_PERSONALITIES.length).countP _ = 0
        rw [show BOT_PERSONALITIES.length = 5 from rfl]
        decide)⟩

/-- Claim C3: when the duplicate search returns at least one match, the
handler bumps the top match's `search_count` by one, returns the duplicate
response with the top match's existing answers, creates no question row and
no answer row, and makes no bot call (the result does not depend on the
bot-generation or persistence outcomes at all). -/
theorem C3_duplicate_branch (question : String) (title : Option String)
    (resolvedUser : Option String) (uid : String) (tagNames : List String)
    (rpc : List String → Nat → Option (List SimilarQuestion))
    (topMatch : SimilarQuestion) (rest : List SimilarQuestion)
    (questionInsertOk : Bool) (freshQuestionId : String)
    (gen gen' : Nat → Option String) (persist persist' : Nat → Bool)
    (freshAnswerId freshAnswerId' : Nat → String) (db : AskDB)
    (htrim : trimStr question ≠ "")
    (huser : resolvedUser = some uid)
    (hsim : findSimilarQuestions tagNames rpc = topMatch :: rest)
    (hrow : ∀ q ∈ db.questions, q.id = topMatch.question_id →
      q.search_count = topMatch.search_count) :
    askHandler question title resolvedUser tagNames true rpc questionInsertOk
        freshQuestionId gen persist freshAnswerId db =
      (AskResult.duplicate topMatch.question_id
        (getAnswersForQuestion topMatch.question_id db)
        (topMatch.search_count + 1) tagNames,
       AskDB.mk
         (db.questions.map (fun q =>
           if q.id = topMatch.question_id then
             { q with search_count := q.search_count + 1 }
           else q))
         db.answers) ∧
    askHandler question title resolvedUser tagNames true rpc questionInsertOk
        freshQuestionId gen persist freshAnswerId db =
      askHandler question title resolvedUser tagNames true rpc questionInsertOk
        freshQuestionId gen' persist' freshAnswerId' db ∧
    (askHandler question title resolvedUser tagNames true rpc questionInsertOk
        freshQuestionId gen persist freshAnswerId db).2.questions.length =
      db.questions.length := by
  subst huser
  have e : ∀ (g : Nat → Option String) (ps : Nat → Bool) (fa : Nat → String),
      askHandler question title (some uid) tagNames true rpc questionInsertOk
        freshQuestionId g ps fa db =
      (AskResult.duplicate topMatch.question_id
        (getAnswersForQuestion topMatch.question_id db)
        (topMatch.search_count + 1) tagNames,
       AskDB.mk
         (db.questions.map (fun q =>
           if q.id = topMatch.question_id then
             { q with search_count := topMatch.search_count + 1 }
           else q))
         db.answers) := by
    intro g ps fa
    unfold askHandler
    rw [if_neg htrim, if_neg (by simp)]
    simp only [hsim]
  have hmap : db.questions.map (fun q =>
      if q.id = topMatch.question_id then
        { q with search_count := topMatch.search_count + 1 }
      else q) =
      db.questions.map (fun q =>
        if q.id = topMatch.question_id then
          { q with search_count := q.search_count + 1 }
        else q) := by
    apply List.map_congr_left
    intro q hq
    by_cases h : q.id = topMatch.question_id
    · rw [if_pos h, if_pos h, hrow q hq h]
    · rw [if_neg h, if_neg h]
  refine ⟨?_, ?_, ?_⟩
  · rw [e gen persist freshAnswerId, hmap]
  · rw [e gen persist freshAnswerId, e gen' persist' freshAnswerId']
  · rw [e gen persist freshAnswerId]
    simp

/-- Witness for C3: one stored question with a matching tag pair; the
handler bumps its counter from 4 to 5, returns its stored answer, and
leaves the tables otherwise untouched. -/
theorem C3_duplicate_branch_witness :
    trimStr "q" ≠ "" ∧
    (some "user-1" : Option String) = some "user-1" ∧
    findSimilarQuestions ["css", "html"]
      (fun _ _ => some [SimilarQuestion.mk "q-0" "t" "c" 4 "2024" ["css", "html"] 2]) =
      SimilarQuestion.mk "q-0" "t" "c" 4 "2024" ["css", "html"] 2 :: [] ∧
    (∀ q ∈ [QuestionRow.mk "q-0" "user-0" "t" "c" "open" 4],
      q.id = (SimilarQuestion.mk "q-0" "t" "c" 4 "2024" ["css", "html"] 2).question_id →
      q.search_count =
        (SimilarQuestion.mk "q-0" "t" "c" 4 "2024" ["css", "html"] 2).search_count) ∧
    (askHandler "q" none (some "user-1") ["css", "html"] true
        (fun _ _ => some [SimilarQuestion.mk "q-0" "t" "c" 4 "2024" ["css", "html"] 2])
        true "q-1" (fun _ => some "x") (fun _ => true) (fun i => toString i)
        (AskDB.mk [QuestionRow.mk "q-0" "user-0" "t" "c" "open" 4]
          [AnswerRow.mk "a-0" "q-0" "bot" "stored answer" false]) =
      (AskResult.duplicate "q-0"
        (getAnswersForQuestion "q-0"
          (AskDB.mk [QuestionRow.mk "q-0" "user-0" "t" "c" "open" 4]
            [AnswerRow.mk "a-0" "q-0" "bot" "stored answer" false]))
        5 ["css", "html"],
       AskDB.mk
         ([QuestionRow.mk "q-0" "user-0" "t" "c" "open" 4].map (fun q =>
           if q.id = "q-0" then { q with search_count := q.search_count + 1 }
           else q))
         [AnswerRow.mk "a-0" "q-0" "bot" "stored answer" false]) ∧
      askHandler "q" none (some "user-1") ["css", "html"] true
        (fun _ _ => some [SimilarQuestion.mk "q-0" "t" "c" 4 "2024" ["css", "html"] 2])
        true "q-1" (fun _ => some "x") (fun _ => true) (fun i => toString i)
        (AskDB.mk [QuestionRow.mk "q-0" "user-0" "t" "c" "open" 4]
          [AnswerRow.mk "a-0" "q-0" "bot" "stored answer" false]) =
      askHandler "q" none (some "user-1") ["css", "html"] true
        (fun _ _ => some [SimilarQuestion.mk "q-0" "t" "c" 4 "2024" ["css", "html"] 2])
        true "q-1" (fun _ => none) (fun _ => false) (fun i => toString (i + 1))
        (AskDB.mk [QuestionRow.mk "q-0" "user-0" "t" "c" "open" 4]
          [AnswerRow.mk "a-0" "q-0" "bot" "stored answer" false]) ∧
      (askHandler "q" none (some "user-1") ["css", "html"] true
        (fun _ _ => some [SimilarQuestion.mk "q-0" "t" "c" 4 "2024" ["css", "html"] 2])
        true "q-1" (fun _ => some "x") (fun _ => true) (fun i => toString i)
        (AskDB.mk [QuestionRow.mk "q-0" "user-0" "t" "c" "open" 4]
          [AnswerRow.mk "a-0" "q-0" "bot" "stored answer" false])).2.questions.length =
      [QuestionRow.mk "q-0" "user-0" "t" "c" "open" 4].length) :=
  ⟨by decide, rfl, rfl, by decide,
    C3_duplicate_branch "q" none (some "user-1") "user-1" ["css", "html"]
      (fun _ _ => some [SimilarQuestion.mk "q-0" "t" "c" 4 "2024" ["css", "html"] 2])
      (SimilarQuestion.mk "q-0" "t" "c" 4 "2024" ["css", "html"] 2) []
      true "q-1" (fun _ => some "x") (fun _ => none) (fun _ => true)
      (fun _ => false) (fun i => toString i) (fun i => toString (i + 1))
      (AskDB.mk [QuestionRow.mk "q-0" "user-0" "t" "c" "open" 4]
        [AnswerRow.mk "a-0" "q-0" "bot" "stored answer" false])
      (by decide) rfl rfl (by decide)⟩

/-! ## C8: bot-id stability and idempotent bot-profile initialization -/

/-- `getProfile` unfolded on a known filter result. -/
lemma getProfile_of_filter (uid : String) (t : List Profile) (p : Profile)
    (h : t.filter (fun r => r.id = uid) = [p]) : getProfile uid t = some p := by
  unfold getProfile
  rw [h]

/-- `getProfile` is `none` when no row matches. -/
lemma getProfile_of_filter_nil (uid : String) (t : List Profile)
    (h : t.filter (fun r => r.id = uid) = []) : getProfile uid t = none := by
  unfold getProfile
  rw [h]

/-- One init step is a no-op when the bot's profile is already resolvable. -/
lemma initBotStep_of_getProfile (authIds : List String) (t : List Profile)
    (bot : BotPersonality) (p : Profile) (h : getProfile bot.id t = some p) :
    initBotStep authIds t bot = t := by
  unfold initBotStep ensureUserProfileAI
  simp [h]

/-- One init step is a no-op when the bot has no row and its id is not in
`auth.users` (the insert fails on the foreign-key constraint). -/
lemma initBotStep_of_unauth (authIds : List String) (t : List Profile)
    (bot : BotPersonality)
    (hfil : t.filter (fun r => r.id = bot.id) = [])
    (hauth : bot.id ∉ authIds) :
    initBotStep authIds t bot = t := by
  have hget : getProfile bot.id t = none := getProfile_of_filter_nil _ _ hfil
  unfold initBotStep ensureUserProfileAI upsertAIProfile
  simp [hget, hfil, hauth]

/-- One init step is a no-op when several rows already carry the bot's id
(`single()` errors, the insert hits the unique violation, and the re-read
still finds no single row). -/
lemma initBotStep_of_dup (authIds : List String) (t : List Profile)
    (bot : BotPersonality)
    (h2 : 2 ≤ (t.filter (fun r => r.id = bot.id)).length) :
    initBotStep authIds t bot = t := by
  rcases hf : t.filter (fun r => r.id = bot.id) with - | ⟨a, - | ⟨b, rest⟩⟩
  · rw [hf] at h2
    simp at h2
  · rw [hf] at h2
    simp at h2
  · have hget : getProfile bot.id t = none := by
      unfold getProfile
      rw [hf]
    unfold initBotStep ensureUserProfileAI upsertAIProfile
    simp [hget, hf]

/-- One init step inserts the bot's row when no row carries its id and the
id exists in `auth.users`. -/
lemma initBotStep_insert (authIds : List String) (t : List Profile)
    (bot : BotPersonality)
    (hfil : t.filter (fun r => r.id = bot.id) = [])
    (hauth : bot.id ∈ authIds) :
    initBotStep authIds t bot =
      t ++ [Profile.mk bot.id bot.username true none] := by
  have hget : getProfile bot.id t = none := getProfile_of_filter_nil _ _ hfil
  unfold initBotStep ensureUserProfileAI upsertAIProfile
  simp [hget, hfil, hauth]

/-- Every init step either leaves the table unchanged or appends the bot's
fresh row (in a state where no row carried its id and the id is in
`auth.users`). -/
lemma initBotStep_classify (authIds : List String) (t : List Profile)
    (bot : BotPersonality) :
    initBotStep authIds t bot = t ∨
    (t.filter (fun r => r.id = bot.id) = [] ∧ bot.id ∈ authIds ∧
     initBotStep authIds t bot =
       t ++ [Profile.mk bot.id bot.username true none]) := by
  rcases hf : t.filter (fun r => r.id = bot.id) with - | ⟨a, - | ⟨b, rest⟩⟩
  · by_cases hauth : bot.id ∈ authIds
    · exact Or.inr ⟨hf, hauth, initBotStep_insert authIds t bot hf hauth⟩
    · exact Or.inl (initBotStep_of_unauth authIds t bot hf hauth)
  · exact Or.inl (initBotStep_of_getProfile authIds t bot a
      (getProfile_of_filter _ _ _ hf))
  · refine Or.inl (initBotStep_of_dup authIds t bot ?_)
    rw [hf]
    simp

/-- After a bot's own step, a repeat of that step is a no-op. -/
lemma initBotStep_settles (authIds : List String) (t : List Profile)
    (bot : BotPersonality) :
    initBotStep authIds (initBotStep authIds t bot) bot =
      initBotStep authIds t bot := by
  rcases initBotStep_classify authIds t bot with h | ⟨hf, hauth, h⟩
  · rw [h]
    exact h
  · rw [h]
    apply initBotStep_of_getProfile authIds _ bot
      (Profile.mk bot.id bot.username true none)
    apply getProfile_of_filter
    rw [List.filter_append, hf]
    simp

/-- A bot whose step is a no-op stays a no-op after any other bot's step. -/
lemma initBotStep_settled_preserved (authIds : List String) (t : List Profile)
    (bot bot' : BotPersonality)
    (h : initBotStep authIds t bot = t) :
    initBotStep authIds (initBotStep authIds t bot') bot =
      initBotStep authIds t bot' := by
  rcases initBotStep_classify authIds t bot' with h' | ⟨hf', hauth', h'⟩
  · rw [h']
    exact h
  · rw [h']
    rcases hfb : t.filter (fun r => r.id = bot.id) with - | ⟨a, - | ⟨b2, rest⟩⟩
    · by_cases hid : bot'.id = bot.id
      · exfalso
        have hins := initBotStep_insert authIds t bot hfb (hid ▸ hauth')
        rw [h] at hins
        have := congrArg List.length hins
        simp at this
      · by_cases hauthb : bot.id ∈ authIds
        · exfalso
          have hins := initBotStep_insert authIds t bot hfb hauthb
          rw [h] at hins
          have := congrArg List.length hins
          simp at this
        · apply initBotStep_of_unauth authIds _ bot _ hauthb
          rw [List.filter_append, hfb]
          simp [hid]
    · have hid : bot'.id ≠ bot.id := by
        intro hEq
        rw [hEq] at hf'
        rw [hf'] at hfb
        cases hfb
      apply initBotStep_of_getProfile authIds _ bot a
      apply getProfile_of_filter
      rw [List.filter_append, hfb]
      simp [hid]
    · apply initBotStep_of_dup authIds _ bot
      rw [List.filter_append, hfb]
      by_cases hid : bot'.id = bot.id
      · rw [hid] at hf'
        rw [hf'] at hfb
        cases hfb
      · simp [hid]

/-- A settled bot stays settled through a whole fold of other steps. -/
lemma initBotStep_settled_foldl (authIds : List String)
    (l : List BotPersonality) (t : List Profile) (bot : BotPersonality)
    (h : initBotStep authIds t bot = t) :
    initBotStep authIds (l.foldl (initBotStep authIds) t) bot =
      l.foldl (initBotStep authIds) t := by
  induction l generalizing t with
  | nil => exact h
  | cons b' rest ih =>
    rw [List.foldl_cons]
    exact ih (initBotStep authIds t b')
      (initBotStep_settled_preserved authIds t bot b' h)

/-- After one full pass, every bot in the list is settled. -/
lemma initBotStep_all_settled (authIds : List String)
    (l : List BotPersonality) (t : List Profile) :
    ∀ bot ∈ l, initBotStep authIds (l.foldl (initBotStep authIds) t) bot =
      l.foldl (initBotStep authIds) t := by
  induction l generalizing t with
  | nil =>
    intro bot hmem
    cases hmem
  | cons b rest ih =>
    intro bot hmem
    rw [List.foldl_cons]
    rcases List.mem_cons.mp hmem with heq | hmem'
    · subst heq
      exact initBotStep_settled_foldl authIds rest _ _
        (initBotStep_settles authIds t _)
    · exact ih (initBotStep authIds t b) bot hmem'

/-- A fold of settled steps is the identity. -/
lemma foldl_of_settled (authIds : List String) (l : List BotPersonality)
    (t : List Profile)
    (h : ∀ bot ∈ l, initBotStep authIds t bot = t) :
    l.foldl (initBotStep authIds) t = t := by
  induction l with
  | nil => rfl
  | cons b rest ih =>
    rw [List.foldl_cons, h b (List.mem_cons_self b rest)]
    exact ih (fun bot hb => h bot (List.mem_cons_of_mem b hb))

/-- `toHexFixed n` always renders exactly `n` characters. -/
lemma toHexFixed_length : ∀ (n x : Nat), (toHexFixed n x).length = n
  | 0, _ => rfl
  | n + 1, x => by
    simp [toHexFixed, toHexFixed_length n]

/-- A SHA-1 hex digest has 40 characters. -/
lemma sha1HexChars_length (msg : List Nat) : (sha1HexChars msg).length = 40 := by
  unfold sha1HexChars sha1Words
  rcases sha1Process (1732584193, 4023233417, 2562383102, 271733878, 3285377520)
      (sha1Pad msg) with ⟨h0, h1, h2, h3, h4⟩
  simp [toHexFixed_length]

/-- Claim C8: a bot's profile id is a deterministic function of its
personality key — `generateDeterministicUUID` is a pure function, so the
same key yields the same id on every call — and the id is UUID-formatted:
five dash-separated groups of 8/4/4/4/12 hex characters whose third group
starts with the version nibble `5`.  Consequently initializing the bot
profiles is idempotent: running `initializeBotProfiles` a second time (for
any `auth.users` contents and any starting table) changes nothing and
creates no duplicate profile rows. -/
theorem C8_bot_identity_stable :
    (∀ (authIds : List String) (profiles : List Profile),
      initializeBotProfiles authIds (initializeBotProfiles authIds profiles) =
        initializeBotProfiles authIds profiles) ∧
    (∀ s : String, ∃ p1 p2 p3 p4 p5 : List Char,
      (generateDeterministicUUID s).data =
        p1 ++ '-' :: p2 ++ '-' :: p3 ++ '-' :: p4 ++ '-' :: p5 ∧
      p1.length = 8 ∧ p2.length = 4 ∧ p3.length = 4 ∧ p4.length = 4 ∧
      p5.length = 12 ∧ p3.head? = some '5') := by
  constructor
  · intro authIds profiles
    unfold initializeBotProfiles
    exact foldl_of_settled authIds BOT_PERSONALITIES _
      (initBotStep_all_settled authIds BOT_PERSONALITIES profiles)
  · intro s
    have h40 := sha1HexChars_length (utf8Bytes (botNamespace ++ s))
    unfold generateDeterministicUUID
    refine ⟨((sha1HexChars (utf8Bytes (botNamespace ++ s))).drop 0).take (8 - 0),
      ((sha1HexChars (utf8Bytes (botNamespace ++ s))).drop 8).take (12 - 8),
      '5' :: ((sha1HexChars (utf8Bytes (botNamespace ++ s))).drop 13).take (16 - 13),
      toHexFixed 2 (((hexCharVal ((sha1HexChars (utf8Bytes (botNamespace ++ s))).getD 16 '0') * 16 +
          hexCharVal ((sha1HexChars (utf8Bytes (botNamespace ++ s))).getD 17 '0')) &&& 63) ||| 128) ++
        ((sha1HexChars (utf8Bytes (botNamespace ++ s))).drop 18).take (20 - 18),
      ((sha1HexChars (utf8Bytes (botNamespace ++ s))).drop 20).take (32 - 20),
      ?_, ?_, ?_, ?_, ?_, ?_, rfl⟩
    · simp [List.cons_append, List.append_assoc]
    · simp [List.length_take, List.length_drop, h40]
    · simp [List.length_take, List.length_drop, h40]
    · simp [List.length_take, List.length_drop, h40]
    · simp [List.length_take, List.length_drop, h40, toHexFixed_length]
    · simp [List.length_take, List.length_drop, h40]

end Askless
